import Mathlib

/-!
# Verification of the pyorthanc lazy-caching resource layer

Shallow embedding of `src/pyorthanc/_resources/patient.py` and
`src/pyorthanc/_resources/series.py`.  Python objects become explicit state
records; the remote Orthanc client becomes a pure oracle (a record of response
functions); every method that may touch the client is translated as a function
returning its result, the updated receiver state, and the list of remote calls
it issued (the trace), so that fetch-counting properties are statable.

Parts of the repository that the claims depend on but that are not under
`src/` (the `Resource` base constructor in resource.py, `Study.remove_empty_series`
in study.py, `util.make_datetime_from_dicom_date`, the `Job` wrapper) are
modelled from the specification and marked as such in their doc comments.
-/

/-- Error kinds surfaced by the layer: `tagDoesNotExist` mirrors
`errors.TagDoesNotExistError` (the spec's TagMissing), `valueError` mirrors
Python's `ValueError` (the spec's InvalidArgument), `parseError` mirrors the
spec's ParseError for malformed date strings. -/
inductive PyError where
  | tagDoesNotExist (tag : String)
  | valueError (msg : String)
  | parseError (value : String)
deriving DecidableEq, Repr

/-- The slice of an Orthanc main-information document that the verified layer
reads: `['MainDicomTags']` (an ordered string-to-string mapping),
the child-identifier list (`['Studies']` for a patient document,
`['Instances']` for a series document), and `['Labels']`. -/
structure MainInformation where
  mainDicomTags : List (String × String)
  childIds : List String
  labels : List String
deriving DecidableEq, Repr

/-- Response of `POST .../anonymize`: per the spec the client returns
`{ID: newIdentifier}`; the layer reads only the `ID` field. -/
structure AnonymizeResponse where
  ID : String
deriving DecidableEq, Repr

/-- The body built by `anonymize` (the Python `data` dict); `DicomVersion` is
added only when a version is supplied, hence the `Option`. -/
structure AnonymizeData where
  remove : List String
  replace : List (String × String)
  keep : List String
  force : Bool
  asynchronous : Bool
  keepPrivateTags : Bool
  keepSource : Bool
  priority : Int
  permissive : Bool
  dicomVersion : Option String
deriving DecidableEq, Repr

/-- One remote call, as recorded in a trace.  Constructors follow the client
method names used in the source. -/
inductive ClientCall where
  | get_patients_id (id_ : String)
  | get_series_id (id_ : String)
  | put_patients_id_labels_label (id_ label : String)
  | delete_patients_id_labels_label (id_ label : String)
  | put_series_id_labels_label (id_ label : String)
  | delete_series_id_labels_label (id_ label : String)
  | get_patients_id_module (id_ : String) (params : List (String × Bool))
  | post_patients_id_anonymize (id_ : String) (data : AnonymizeData)
  | post_series_id_anonymize (id_ : String) (data : AnonymizeData)
deriving DecidableEq, Repr

/-- The remote client as a pure oracle: each field gives the decoded response
the server would return for that request.  Calls whose responses the layer
ignores (label put/delete) need no oracle field; they are still recorded in
traces. -/
structure Client where
  get_patients_id : String → MainInformation
  get_series_id : String → MainInformation
  get_patients_id_module : String → List (String × Bool) → List (String × String)
  post_patients_id_anonymize : String → AnonymizeData → AnonymizeResponse
  post_series_id_anonymize : String → AnonymizeData → AnonymizeResponse

/-- State of an `Instance` proxy (leaf: no caches are read by the claims). -/
structure InstanceState where
  id_ : String
  lock : Bool
deriving DecidableEq, Repr

/-- State of a `Series` proxy.  `information` is `_information`;
`childResources` is `_child_resources`.  The cached child list may contain
`none` entries (Python `None`), which `remove_empty_instances` filters out. -/
structure SeriesState where
  id_ : String
  lock : Bool
  information : Option MainInformation
  childResources : Option (List (Option InstanceState))
deriving DecidableEq, Repr

/-- State of a `Study` proxy. -/
structure StudyState where
  id_ : String
  lock : Bool
  information : Option MainInformation
  childResources : Option (List SeriesState)
deriving DecidableEq, Repr

/-- State of a `Patient` proxy. -/
structure PatientState where
  id_ : String
  lock : Bool
  information : Option MainInformation
  childResources : Option (List StudyState)
deriving DecidableEq, Repr

/-- Modelled from the spec: the `Job` handle (jobs.py is not under src/).
Per the spec a Job is "an asynchronous handle returned instead of a direct
result"; `Job(job_id, client)` wraps the returned job identifier (the shared
client is ambient in this embedding). -/
structure JobState where
  id_ : String
deriving DecidableEq, Repr

/-- Result type of `Patient.anonymize` (`Union[Patient, Job]`). -/
inductive PatientOrJob where
  | patient (p : PatientState)
  | job (j : JobState)
deriving DecidableEq, Repr

/-- Result type of `Series.anonymize` (`Union[Series, Job]`). -/
inductive SeriesOrJob where
  | series (s : SeriesState)
  | job (j : JobState)
deriving DecidableEq, Repr

/-- Modelled from the spec: the `Resource` base constructor (resource.py is
not under src/).  Per the spec, a resource is created from an identifier with
its lock flag set at construction and both caches unset; the lock flag
defaults to unlocked when not supplied (`Patient(id, client)`). -/
def PatientState.new (id_ : String) (lock : Bool) : PatientState :=
  { id_ := id_, lock := lock, information := none, childResources := none }

/-- Modelled from the spec: `Study` construction, same contract as
`PatientState.new`. -/
def StudyState.new (id_ : String) (lock : Bool) : StudyState :=
  { id_ := id_, lock := lock, information := none, childResources := none }

/-- Modelled from the spec: `Series` construction, same contract as
`PatientState.new`. -/
def SeriesState.new (id_ : String) (lock : Bool) : SeriesState :=
  { id_ := id_, lock := lock, information := none, childResources := none }

/-- Modelled from the spec: `Instance` construction, same contract as
`PatientState.new`. -/
def InstanceState.new (id_ : String) (lock : Bool) : InstanceState :=
  { id_ := id_, lock := lock }

/-- `Patient.get_main_information` (patient.py lines 18-33): when locked,
fetch `GET /patients/{id}` on first use, store it in `_information`, and
serve the stored document afterwards; when unlocked, fetch fresh every time
and store nothing. -/
def PatientState.get_main_information (client : Client) (self : PatientState) :
    MainInformation × PatientState × List ClientCall :=
  if self.lock then
    match self.information with
    | none =>
        let info := client.get_patients_id self.id_
        (info, { self with information := some info }, [ClientCall.get_patients_id self.id_])
    | some info => (info, self, [])
  else
    (client.get_patients_id self.id_, self, [ClientCall.get_patients_id self.id_])

/-- `Series.get_main_information` (series.py lines 36-45): same caching
policy against `GET /series/{id}`. -/
def SeriesState.get_main_information (client : Client) (self : SeriesState) :
    MainInformation × SeriesState × List ClientCall :=
  if self.lock then
    match self.information with
    | none =>
        let info := client.get_series_id self.id_
        (info, { self with information := some info }, [ClientCall.get_series_id self.id_])
    | some info => (info, self, [])
  else
    (client.get_series_id self.id_, self, [ClientCall.get_series_id self.id_])

/-- `Series.remove_empty_instances` (series.py lines 264-266): when the child
cache is materialized, rewrite it keeping only the entries that are not
`None`; otherwise do nothing.  The body performs no client call, hence the
empty trace. -/
def SeriesState.remove_empty_instances (self : SeriesState) :
    SeriesState × List ClientCall :=
  match self.childResources with
  | none => (self, [])
  | some children =>
      ({ self with childResources := some (children.filter (fun i => i ≠ none)) }, [])

/-- Modelled from the spec: `Study.remove_empty_series` (study.py is not under
src/).  Per the spec, each level's pruning method operates "on already-cached
children only": it delegates emptiness-pruning to every cached Series child
(`remove_empty_instances`) and then "filters cached Series whose cached
Instance list is empty", a no-op when the Study's child cache was never
materialized, with no remote call. -/
def StudyState.remove_empty_series (self : StudyState) :
    StudyState × List ClientCall :=
  match self.childResources with
  | none => (self, [])
  | some children =>
      let results := children.map (fun s => SeriesState.remove_empty_instances s)
      let pruned := (results.map Prod.fst).filter (fun s => s.childResources ≠ some [])
      ({ self with childResources := some pruned }, (results.map Prod.snd).flatten)

/-- `Patient.remove_empty_studies` (patient.py lines 315-323): no-op when the
child cache was never materialized; otherwise run `remove_empty_series` on
every cached Study and keep exactly the studies whose cached child list is
not the empty list.  No client call is performed. -/
def PatientState.remove_empty_studies (self : PatientState) :
    PatientState × List ClientCall :=
  match self.childResources with
  | none => (self, [])
  | some children =>
      let results := children.map (fun st => StudyState.remove_empty_series st)
      let pruned := (results.map Prod.fst).filter (fun st => st.childResources ≠ some [])
      ({ self with childResources := some pruned }, (results.map Prod.snd).flatten)

/-- The study list `remove_empty_studies` installs when the cache held `cs`:
each study pruned by `remove_empty_series`, then only those whose cached
child list is not the empty list, in order. -/
def prunedStudies (cs : List StudyState) : List StudyState :=
  (cs.map (fun st => (StudyState.remove_empty_series st).1)).filter
    (fun st => st.childResources ≠ some [])

/-- Sample document used by the concrete witnesses. -/
def sampleInfo : MainInformation :=
  { mainDicomTags := [("PatientID", "P1"), ("SeriesDate", "20220101"), ("SeriesTime", "101530")]
    childIds := ["child-a", "child-b"]
    labels := ["lab1", "lab2"] }

/-- Sample oracle used by the concrete witnesses. -/
def sampleClient : Client :=
  { get_patients_id := fun _ => sampleInfo
    get_series_id := fun _ => sampleInfo
    get_patients_id_module := fun _ _ => [("PatientID", "P1")]
    post_patients_id_anonymize := fun _ _ => { ID := "anon-patient" }
    post_series_id_anonymize := fun _ _ => { ID := "anon-series" } }

/-- A series whose cached instance list holds one real entry and one `None`. -/
def sampleSeriesA : SeriesState :=
  { id_ := "se-a", lock := true, information := none
    childResources := some [some (InstanceState.new "i1" true), none] }

/-- A series whose cached instance list is already empty. -/
def sampleSeriesB : SeriesState :=
  { id_ := "se-b", lock := true, information := none, childResources := some [] }

/-- A study that keeps a non-empty series after pruning. -/
def sampleStudyA : StudyState :=
  { id_ := "st-a", lock := true, information := none, childResources := some [sampleSeriesA] }

/-- A study whose only cached series prunes to empty, so the study itself is
pruned. -/
def sampleStudyB : StudyState :=
  { id_ := "st-b", lock := true, information := none, childResources := some [sampleSeriesB] }

/-- A study whose child cache was never materialized. -/
def sampleStudyC : StudyState :=
  { id_ := "st-c", lock := true, information := none, childResources := none }

/-- The cached study list of the sample patient tree. -/
def sampleStudies : List StudyState := [sampleStudyA, sampleStudyB, sampleStudyC]

/-- A patient whose cached study list is `sampleStudies`. -/
def samplePatientTree : PatientState :=
  { id_ := "p-tree", lock := true, information := none
    childResources := some sampleStudies }

/-- `Patient.labels` (patient.py lines 73-75): reads
`get_main_information()['Labels']`. -/
def PatientState.labels (client : Client) (self : PatientState) :
    List String × PatientState × List ClientCall :=
  let r := PatientState.get_main_information client self
  (r.1.labels, r.2.1, r.2.2)

/-- `Series.labels` (series.py lines 163-165). -/
def SeriesState.labels (client : Client) (self : SeriesState) :
    List String × SeriesState × List ClientCall :=
  let r := SeriesState.get_main_information client self
  (r.1.labels, r.2.1, r.2.2)

/-- `Patient.add_label` (patient.py lines 77-78): a single remote PUT; the
receiver's fields are untouched. -/
def PatientState.add_label (self : PatientState) (label : String) :
    PatientState × List ClientCall :=
  (self, [ClientCall.put_patients_id_labels_label self.id_ label])

/-- `Patient.remove_label` (patient.py lines 80-81): a single remote DELETE. -/
def PatientState.remove_label (self : PatientState) (label : String) :
    PatientState × List ClientCall :=
  (self, [ClientCall.delete_patients_id_labels_label self.id_ label])

/-- `Series.add_label` (series.py lines 167-168). -/
def SeriesState.add_label (self : SeriesState) (label : String) :
    SeriesState × List ClientCall :=
  (self, [ClientCall.put_series_id_labels_label self.id_ label])

/-- `Series.remove_label` (series.py lines 170-171). -/
def SeriesState.remove_label (self : SeriesState) (label : String) :
    SeriesState × List ClientCall :=
  (self, [ClientCall.delete_series_id_labels_label self.id_ label])

/-- `Patient.get_patient_module` (patient.py lines 109-139): the `simplify`
and `short` flags select the request params; both set raises `ValueError`
before the remote call; otherwise a single module request is issued and its
decoded result returned. -/
def PatientState.get_patient_module (client : Client) (self : PatientState)
    (simplify short : Bool) :
    Except PyError (List (String × String)) × List ClientCall :=
  let params : Except PyError (List (String × Bool)) :=
    if simplify && !short then Except.ok [("simplify", true)]
    else if short && !simplify then Except.ok [("short", true)]
    else if simplify && short then
      Except.error (PyError.valueError "simplify and short cannot be both True")
    else Except.ok []
  match params with
  | Except.error e => (Except.error e, [])
  | Except.ok ps =>
      (Except.ok (client.get_patients_id_module self.id_ ps),
       [ClientCall.get_patients_id_module self.id_ ps])

/-- The request body `anonymize` builds from its arguments: `None`
list/mapping arguments default to empty, and `DicomVersion` is included only
when a version is supplied (patient.py lines 290-306, series.py lines
213-229). -/
def mkAnonymizeData (remove : Option (List String))
    (replace : Option (List (String × String))) (keep : Option (List String))
    (asynchronous force keep_private_tags keep_source : Bool) (priority : Int)
    (permissive : Bool) (dicom_version : Option String) : AnonymizeData :=
  { remove := remove.getD []
    replace := replace.getD []
    keep := keep.getD []
    force := force
    asynchronous := asynchronous
    keepPrivateTags := keep_private_tags
    keepSource := keep_source
    priority := priority
    permissive := permissive
    dicomVersion := dicom_version }

/-- `Patient.anonymize` (patient.py lines 230-313): build the request body and
POST it once; in asynchronous mode wrap the returned ID as a Job, otherwise as
a new Patient constructed without the source's lock flag; the receiver state
is returned unchanged. -/
def PatientState.anonymize (client : Client) (self : PatientState)
    (remove : Option (List String)) (replace : Option (List (String × String)))
    (keep : Option (List String))
    (asynchronous force keep_private_tags keep_source : Bool) (priority : Int)
    (permissive : Bool) (dicom_version : Option String) :
    PatientOrJob × PatientState × List ClientCall :=
  let data := mkAnonymizeData remove replace keep asynchronous force
    keep_private_tags keep_source priority permissive dicom_version
  let resp := client.post_patients_id_anonymize self.id_ data
  if asynchronous then
    (PatientOrJob.job { id_ := resp.ID }, self,
     [ClientCall.post_patients_id_anonymize self.id_ data])
  else
    (PatientOrJob.patient (PatientState.new resp.ID false), self,
     [ClientCall.post_patients_id_anonymize self.id_ data])

/-- `Series.anonymize` (series.py lines 173-236): same contract as
`Patient.anonymize` against the series endpoint. -/
def SeriesState.anonymize (client : Client) (self : SeriesState)
    (remove : Option (List String)) (replace : Option (List (String × String)))
    (keep : Option (List String))
    (asynchronous force keep_private_tags keep_source : Bool) (priority : Int)
    (permissive : Bool) (dicom_version : Option String) :
    SeriesOrJob × SeriesState × List ClientCall :=
  let data := mkAnonymizeData remove replace keep asynchronous force
    keep_private_tags keep_source priority permissive dicom_version
  let resp := client.post_series_id_anonymize self.id_ data
  if asynchronous then
    (SeriesOrJob.job { id_ := resp.ID }, self,
     [ClientCall.post_series_id_anonymize self.id_ data])
  else
    (SeriesOrJob.series (SeriesState.new resp.ID false), self,
     [ClientCall.post_series_id_anonymize self.id_ data])

/-- `Patient.studies` (patient.py lines 210-228): under lock, on first access
fetch the identifier list from `get_main_information()['Studies']`, build one
Study proxy per identifier with the parent's lock flag, and cache the list;
afterwards serve the cached list.  Without lock, rebuild the list on every
access and cache nothing. -/
def PatientState.studies (client : Client) (self : PatientState) :
    List StudyState × PatientState × List ClientCall :=
  if self.lock then
    match self.childResources with
    | none =>
        let r := PatientState.get_main_information client self
        let children := r.1.childIds.map (fun i => StudyState.new i self.lock)
        (children, { r.2.1 with childResources := some children }, r.2.2)
    | some children => (children, self, [])
  else
    let r := PatientState.get_main_information client self
    (r.1.childIds.map (fun i => StudyState.new i self.lock), r.2.1, r.2.2)

/-- `Series.instances` (series.py lines 17-29): same lazy child-accessor
shape as `Patient.studies`, over `get_main_information()['Instances']`. -/
def SeriesState.instances (client : Client) (self : SeriesState) :
    List (Option InstanceState) × SeriesState × List ClientCall :=
  if self.lock then
    match self.childResources with
    | none =>
        let r := SeriesState.get_main_information client self
        let children := r.1.childIds.map (fun i => some (InstanceState.new i self.lock))
        (children, { r.2.1 with childResources := some children }, r.2.2)
    | some children => (children, self, [])
  else
    let r := SeriesState.get_main_information client self
    (r.1.childIds.map (fun i => some (InstanceState.new i self.lock)), r.2.1, r.2.2)

/-- Modelled from the spec: `Resource._get_main_dicom_tag_value` (resource.py
is not under src/), instantiated at Series.  Per the spec it reads
`getMainInformation()['MainDicomTags'][tagName]` and fails with a TagMissing
error, distinct from a generic lookup failure, if the tag is absent. -/
def SeriesState.get_main_dicom_tag_value (client : Client) (self : SeriesState)
    (tag : String) : Except PyError String × SeriesState × List ClientCall :=
  let r := SeriesState.get_main_information client self
  match r.1.mainDicomTags.lookup tag with
  | some v => (Except.ok v, r.2.1, r.2.2)
  | none => (Except.error (PyError.tagDoesNotExist tag), r.2.1, r.2.2)

/-- A structured date-time value (the Python `datetime`). -/
structure PyDateTime where
  year : Nat
  month : Nat
  day : Nat
  hour : Nat
  minute : Nat
  second : Nat
deriving DecidableEq, Repr

/-- Decimal value of a nonempty all-digit character sequence, `none`
otherwise. -/
def parseNatDigits (cs : List Char) : Option Nat :=
  if cs ≠ [] ∧ cs.all (fun c => c.isDigit) then
    some (cs.foldl (fun n c => n * 10 + (c.toNat - 48)) 0)
  else none

/-- Modelled from the spec: `util.make_datetime_from_dicom_date` (util.py is
not under src/).  Per the spec's date-parsing contract it accepts an 8-digit
`YYYYMMDD` string and an optional 6-digit `HHMMSS` string, produces a
structured date-time value (zero time when the time string is absent), and
fails with a ParseError on malformed input. -/
def make_datetime_from_dicom_date (date : String) (time : Option String) :
    Except PyError PyDateTime :=
  if date.data.length = 8 then
    match parseNatDigits (date.data.take 4), parseNatDigits ((date.data.drop 4).take 2),
        parseNatDigits (date.data.drop 6) with
    | some y, some m, some d =>
        match time with
        | none =>
            Except.ok { year := y, month := m, day := d, hour := 0, minute := 0, second := 0 }
        | some t =>
            if t.data.length = 6 then
              match parseNatDigits (t.data.take 2), parseNatDigits ((t.data.drop 2).take 2),
                  parseNatDigits (t.data.drop 4) with
              | some hh, some mi, some ss =>
                  Except.ok { year := y, month := m, day := d
                              hour := hh, minute := mi, second := ss }
              | _, _, _ => Except.error (PyError.parseError t)
            else Except.error (PyError.parseError t)
    | _, _, _ => Except.error (PyError.parseError date)
  else Except.error (PyError.parseError date)

/-- `Series.date` (series.py lines 57-74): read the `SeriesDate` tag (its
absence propagates), then try the `SeriesTime` tag, catching only
`TagDoesNotExistError` and treating it as an absent time component; build the
datetime from the date string and the optional time string. -/
def SeriesState.date (client : Client) (self : SeriesState) :
    Except PyError PyDateTime × SeriesState × List ClientCall :=
  let r1 := SeriesState.get_main_dicom_tag_value client self "SeriesDate"
  match r1.1 with
  | Except.error e => (Except.error e, r1.2.1, r1.2.2)
  | Except.ok date_string =>
      let r2 := SeriesState.get_main_dicom_tag_value client r1.2.1 "SeriesTime"
      match r2.1 with
      | Except.ok time_string =>
          (make_datetime_from_dicom_date date_string (some time_string),
           r2.2.1, r1.2.2 ++ r2.2.2)
      | Except.error (PyError.tagDoesNotExist _) =>
          (make_datetime_from_dicom_date date_string none, r2.2.1, r1.2.2 ++ r2.2.2)
      | Except.error e => (Except.error e, r2.2.1, r1.2.2 ++ r2.2.2)

/-- A locked patient whose metadata cache is already populated. -/
def samplePatientCached : PatientState :=
  { id_ := "p-cached", lock := true, information := some sampleInfo
    childResources := none }

/-- A locked series whose metadata cache is already populated. -/
def sampleSeriesCached : SeriesState :=
  { id_ := "se-cached", lock := true, information := some sampleInfo
    childResources := none }

/-- A document with a `SeriesDate` tag but no `SeriesTime` tag. -/
def sampleInfoNoTime : MainInformation :=
  { mainDicomTags := [("SeriesDate", "20220101")], childIds := [], labels := [] }

/-- A locked series whose cached document lacks the `SeriesTime` tag. -/
def sampleSeriesNoTime : SeriesState :=
  { id_ := "se-notime", lock := true, information := some sampleInfoNoTime
    childResources := none }

lemma remove_empty_instances_trace (s : SeriesState) :
    (SeriesState.remove_empty_instances s).2 = [] := by
  cases h : s.childResources <;> simp [SeriesState.remove_empty_instances, h]

lemma remove_empty_series_trace (st : StudyState) :
    (StudyState.remove_empty_series st).2 = [] := by
  cases h : st.childResources with
  | none => simp [StudyState.remove_empty_series, h]
  | some children =>
      simp only [StudyState.remove_empty_series, h, List.map_map]
      rw [List.flatten_eq_nil_iff]
      intro xs hxs
      simp only [List.mem_map] at hxs
      obtain ⟨s, _, hs⟩ := hxs
      rw [← hs]
      exact remove_empty_instances_trace s

lemma remove_empty_studies_trace (p : PatientState) :
    (PatientState.remove_empty_studies p).2 = [] := by
  cases h : p.childResources with
  | none => simp [PatientState.remove_empty_studies, h]
  | some children =>
      simp only [PatientState.remove_empty_studies, h, List.map_map]
      rw [List.flatten_eq_nil_iff]
      intro xs hxs
      simp only [List.mem_map] at hxs
      obtain ⟨s, _, hs⟩ := hxs
      rw [← hs]
      exact remove_empty_series_trace s

lemma remove_empty_studies_materialized (self : PatientState) (cs : List StudyState)
    (h : self.childResources = some cs) :
    (PatientState.remove_empty_studies self).1 =
      { self with childResources := some (prunedStudies cs) } := by
  simp [PatientState.remove_empty_studies, prunedStudies, h, List.map_map,
        Function.comp_def]

/-- C1: for both Patient and Series, `get_main_information` obeys the uniform
caching contract.  Locked with an empty cache: one fetch, the document is
stored and returned, and a second call returns the identical stored document
with no further fetch.  Locked with a populated cache: the stored document is
returned with no fetch.  Unlocked: every call fetches fresh and the state
(hence the cache field) is left unchanged. -/
theorem C1_get_main_information_caching (client : Client)
    (p : PatientState) (s : SeriesState) :
    (p.lock = true → p.information = none →
      PatientState.get_main_information client p =
        (client.get_patients_id p.id_,
         { p with information := some (client.get_patients_id p.id_) },
         [ClientCall.get_patients_id p.id_]) ∧
      PatientState.get_main_information client
          { p with information := some (client.get_patients_id p.id_) } =
        (client.get_patients_id p.id_,
         { p with information := some (client.get_patients_id p.id_) }, [])) ∧
    (∀ info, p.lock = true → p.information = some info →
      PatientState.get_main_information client p = (info, p, [])) ∧
    (p.lock = false →
      PatientState.get_main_information client p =
        (client.get_patients_id p.id_, p, [ClientCall.get_patients_id p.id_])) ∧
    (s.lock = true → s.information = none →
      SeriesState.get_main_information client s =
        (client.get_series_id s.id_,
         { s with information := some (client.get_series_id s.id_) },
         [ClientCall.get_series_id s.id_]) ∧
      SeriesState.get_main_information client
          { s with information := some (client.get_series_id s.id_) } =
        (client.get_series_id s.id_,
         { s with information := some (client.get_series_id s.id_) }, [])) ∧
    (∀ info, s.lock = true → s.information = some info →
      SeriesState.get_main_information client s = (info, s, [])) ∧
    (s.lock = false →
      SeriesState.get_main_information client s =
        (client.get_series_id s.id_, s, [ClientCall.get_series_id s.id_])) := by
  refine ⟨fun hl hi => ?_, fun info hl hi => ?_, fun hl => ?_,
          fun hl hi => ?_, fun info hl hi => ?_, fun hl => ?_⟩ <;>
    simp_all [PatientState.get_main_information, SeriesState.get_main_information]

/-- Witness for C1 at a concrete locked patient with an empty cache. -/
theorem C1_witness :
    PatientState.get_main_information sampleClient (PatientState.new "p0" true) =
      (sampleInfo,
       { PatientState.new "p0" true with information := some sampleInfo },
       [ClientCall.get_patients_id "p0"]) ∧
    PatientState.get_main_information sampleClient
        { PatientState.new "p0" true with information := some sampleInfo } =
      (sampleInfo,
       { PatientState.new "p0" true with information := some sampleInfo }, []) :=
  (C1_get_main_information_caching sampleClient (PatientState.new "p0" true)
    (SeriesState.new "s0" true)).1 rfl rfl

/-- C2: `remove_empty_studies` is a no-op when the child cache was never
materialized; otherwise it runs `remove_empty_series` on every cached Study
child and replaces the cached list with exactly the pruned studies whose own
cached child list is not the empty list, in their original order
(`prunedStudies`), leaving the other fields untouched. -/
theorem C2_remove_empty_studies (self : PatientState) :
    (self.childResources = none →
      PatientState.remove_empty_studies self = (self, [])) ∧
    (∀ cs, self.childResources = some cs →
      (PatientState.remove_empty_studies self).1 =
        { self with childResources := some (prunedStudies cs) }) := by
  constructor
  · intro h
    simp [PatientState.remove_empty_studies, h]
  · intro cs h
    exact remove_empty_studies_materialized self cs h

/-- Witness for C2 on a concrete three-study tree (one surviving study, one
pruned-to-empty study, one never-fetched study). -/
theorem C2_witness :
    samplePatientTree.childResources = some sampleStudies ∧
    (PatientState.remove_empty_studies samplePatientTree).1 =
      { samplePatientTree with childResources := some (prunedStudies sampleStudies) } :=
  ⟨rfl, (C2_remove_empty_studies samplePatientTree).2 sampleStudies rfl⟩

/-- C8: pruning is purely local-cache bookkeeping.  `remove_empty_studies`
and `remove_empty_instances` issue no remote calls (empty trace) and rewrite
only the cached child list (identifier, lock flag and cached metadata are
untouched); `remove_empty_instances` is a no-op on an unmaterialized list and
otherwise removes exactly the `None` entries. -/
theorem C8_pruning_is_local (p : PatientState) (s : SeriesState) :
    (PatientState.remove_empty_studies p).2 = [] ∧
    (PatientState.remove_empty_studies p).1.id_ = p.id_ ∧
    (PatientState.remove_empty_studies p).1.lock = p.lock ∧
    (PatientState.remove_empty_studies p).1.information = p.information ∧
    (SeriesState.remove_empty_instances s).2 = [] ∧
    (SeriesState.remove_empty_instances s).1.id_ = s.id_ ∧
    (SeriesState.remove_empty_instances s).1.lock = s.lock ∧
    (SeriesState.remove_empty_instances s).1.information = s.information ∧
    (s.childResources = none → (SeriesState.remove_empty_instances s).1 = s) ∧
    (∀ l, s.childResources = some l →
      (SeriesState.remove_empty_instances s).1.childResources =
        some (l.filter (fun i => i ≠ none))) := by
  refine ⟨remove_empty_studies_trace p, ?_, ?_, ?_, remove_empty_instances_trace s,
          ?_, ?_, ?_, ?_, ?_⟩
  · cases h : p.childResources <;> simp [PatientState.remove_empty_studies, h]
  · cases h : p.childResources <;> simp [PatientState.remove_empty_studies, h]
  · cases h : p.childResources <;> simp [PatientState.remove_empty_studies, h]
  · cases h : s.childResources <;> simp [SeriesState.remove_empty_instances, h]
  · cases h : s.childResources <;> simp [SeriesState.remove_empty_instances, h]
  · cases h : s.childResources <;> simp [SeriesState.remove_empty_instances, h]
  · intro h
    simp [SeriesState.remove_empty_instances, h]
  · intro l h
    simp [SeriesState.remove_empty_instances, h]

/-- Witness for C8 on a concrete series with a `None` entry in its cached
instance list. -/
theorem C8_witness :
    sampleSeriesA.childResources = some [some (InstanceState.new "i1" true), none] ∧
    (SeriesState.remove_empty_instances sampleSeriesA).1.childResources =
      some ([some (InstanceState.new "i1" true), none].filter (fun i => i ≠ none)) :=
  ⟨rfl, (C8_pruning_is_local samplePatientTree sampleSeriesA).2.2.2.2.2.2.2.2.2
    [some (InstanceState.new "i1" true), none] rfl⟩

/-- C10: a cached study whose own child cache was never materialized
(`childResources = none`, not the empty list) survives
`remove_empty_studies`: only studies whose cached series list is exactly the
empty list are removed. -/
theorem C10_unfetched_study_retained (self : PatientState) (cs : List StudyState)
    (st : StudyState) (hcs : self.childResources = some cs) (hmem : st ∈ cs)
    (hnone : st.childResources = none) :
    ∃ res, (PatientState.remove_empty_studies self).1.childResources = some res ∧
      st ∈ res := by
  have hst : (StudyState.remove_empty_series st).1 = st := by
    simp [StudyState.remove_empty_series, hnone]
  have hchild : (PatientState.remove_empty_studies self).1.childResources =
      some (prunedStudies cs) := by
    rw [remove_empty_studies_materialized self cs hcs]
  refine ⟨prunedStudies cs, hchild, ?_⟩
  unfold prunedStudies
  apply List.mem_filter.mpr
  refine ⟨?_, by simp [hnone]⟩
  exact hst ▸ List.mem_map_of_mem (fun st => (StudyState.remove_empty_series st).1) hmem

/-- Witness for C10: the never-fetched study of the sample tree survives the
patient-level prune. -/
theorem C10_witness :
    samplePatientTree.childResources = some sampleStudies ∧
    sampleStudyC ∈ sampleStudies ∧
    sampleStudyC.childResources = none ∧
    ∃ res, (PatientState.remove_empty_studies samplePatientTree).1.childResources =
      some res ∧ sampleStudyC ∈ res :=
  ⟨rfl, by simp [sampleStudies], rfl,
   C10_unfetched_study_retained samplePatientTree sampleStudies sampleStudyC rfl
     (by simp [sampleStudies]) rfl⟩

lemma series_info_stable (client : Client) (s : SeriesState) :
    (SeriesState.get_main_information client
        (SeriesState.get_main_information client s).2.1).1 =
      (SeriesState.get_main_information client s).1 := by
  cases hl : s.lock <;> cases hi : s.information <;>
    simp [SeriesState.get_main_information, hl, hi]

/-- C3: `anonymize` is a fork operation.  For every argument combination, the
synchronous call issues exactly one anonymization request and returns a new
resource of the same entity type wrapping the identifier the client returned;
the asynchronous call returns a Job wrapping the returned job identifier; in
both modes the source resource's state (identifier and caches) is returned
unchanged. -/
theorem C3_anonymize_fork (client : Client) (p : PatientState) (s : SeriesState)
    (remove : Option (List String)) (replace : Option (List (String × String)))
    (keep : Option (List String)) (force keep_private_tags keep_source : Bool)
    (priority : Int) (permissive : Bool) (dicom_version : Option String) :
    PatientState.anonymize client p remove replace keep false force
        keep_private_tags keep_source priority permissive dicom_version =
      (PatientOrJob.patient (PatientState.new
          (client.post_patients_id_anonymize p.id_ (mkAnonymizeData remove replace keep
            false force keep_private_tags keep_source priority permissive
            dicom_version)).ID false),
       p,
       [ClientCall.post_patients_id_anonymize p.id_ (mkAnonymizeData remove replace keep
          false force keep_private_tags keep_source priority permissive dicom_version)]) ∧
    PatientState.anonymize client p remove replace keep true force
        keep_private_tags keep_source priority permissive dicom_version =
      (PatientOrJob.job { id_ :=
          (client.post_patients_id_anonymize p.id_ (mkAnonymizeData remove replace keep
            true force keep_private_tags keep_source priority permissive
            dicom_version)).ID },
       p,
       [ClientCall.post_patients_id_anonymize p.id_ (mkAnonymizeData remove replace keep
          true force keep_private_tags keep_source priority permissive dicom_version)]) ∧
    SeriesState.anonymize client s remove replace keep false force
        keep_private_tags keep_source priority permissive dicom_version =
      (SeriesOrJob.series (SeriesState.new
          (client.post_series_id_anonymize s.id_ (mkAnonymizeData remove replace keep
            false force keep_private_tags keep_source priority permissive
            dicom_version)).ID false),
       s,
       [ClientCall.post_series_id_anonymize s.id_ (mkAnonymizeData remove replace keep
          false force keep_private_tags keep_source priority permissive dicom_version)]) ∧
    SeriesState.anonymize client s remove replace keep true force
        keep_private_tags keep_source priority permissive dicom_version =
      (SeriesOrJob.job { id_ :=
          (client.post_series_id_anonymize s.id_ (mkAnonymizeData remove replace keep
            true force keep_private_tags keep_source priority permissive
            dicom_version)).ID },
       s,
       [ClientCall.post_series_id_anonymize s.id_ (mkAnonymizeData remove replace keep
          true force keep_private_tags keep_source priority permissive dicom_version)]) := by
  refine ⟨?_, ?_, ?_, ?_⟩ <;> simp [PatientState.anonymize, SeriesState.anonymize]

/-- C4: requesting both `simplify` and `short` fails with the InvalidArgument
error and an empty trace (zero remote calls); with at most one of the two
flags set, exactly one module request is issued and its decoded result
returned. -/
theorem C4_get_patient_module_exclusive (client : Client) (self : PatientState)
    (simplify short : Bool) :
    (simplify = true → short = true →
      PatientState.get_patient_module client self simplify short =
        (Except.error (PyError.valueError "simplify and short cannot be both True"),
         [])) ∧
    (¬(simplify = true ∧ short = true) →
      ∃ ps, PatientState.get_patient_module client self simplify short =
        (Except.ok (client.get_patients_id_module self.id_ ps),
         [ClientCall.get_patients_id_module self.id_ ps])) := by
  constructor
  · intro h1 h2
    simp [PatientState.get_patient_module, h1, h2]
  · intro h
    cases hs : simplify <;> cases ht : short <;>
      simp_all [PatientState.get_patient_module]

/-- Witness for C4: both flags set yields the error with an empty trace; one
flag set yields one module request. -/
theorem C4_witness :
    PatientState.get_patient_module sampleClient (PatientState.new "p0" false) true true =
      (Except.error (PyError.valueError "simplify and short cannot be both True"), []) ∧
    ∃ ps, PatientState.get_patient_module sampleClient (PatientState.new "p0" false)
        true false =
      (Except.ok (sampleClient.get_patients_id_module "p0" ps),
       [ClientCall.get_patients_id_module "p0" ps]) :=
  ⟨(C4_get_patient_module_exclusive sampleClient (PatientState.new "p0" false)
      true true).1 rfl rfl,
   (C4_get_patient_module_exclusive sampleClient (PatientState.new "p0" false)
      true false).2 (by decide)⟩

/-- C5: `add_label` and `remove_label` on Patient and Series issue exactly
one remote call each and return the receiver state unchanged (no cache
update); consequently, on a locked resource whose metadata is cached, reading
`labels` after `add_label` serves the stale cached label list with no fetch. -/
theorem C5_labels_stale_after_add (client : Client) (p : PatientState)
    (s : SeriesState) (label : String) :
    PatientState.add_label p label =
      (p, [ClientCall.put_patients_id_labels_label p.id_ label]) ∧
    PatientState.remove_label p label =
      (p, [ClientCall.delete_patients_id_labels_label p.id_ label]) ∧
    SeriesState.add_label s label =
      (s, [ClientCall.put_series_id_labels_label s.id_ label]) ∧
    SeriesState.remove_label s label =
      (s, [ClientCall.delete_series_id_labels_label s.id_ label]) ∧
    (∀ info, p.lock = true → p.information = some info →
      PatientState.labels client (PatientState.add_label p label).1 =
        (info.labels, p, [])) ∧
    (∀ info, s.lock = true → s.information = some info →
      SeriesState.labels client (SeriesState.add_label s label).1 =
        (info.labels, s, [])) := by
  refine ⟨rfl, rfl, rfl, rfl, fun info hl hi => ?_, fun info hl hi => ?_⟩ <;>
    simp [PatientState.labels, SeriesState.labels, PatientState.add_label,
          SeriesState.add_label, PatientState.get_main_information,
          SeriesState.get_main_information, hl, hi]

/-- Witness for C5 on a locked patient with cached metadata: after
`add_label`, `labels` still serves the cached (stale) list with no fetch. -/
theorem C5_witness :
    samplePatientCached.lock = true ∧
    samplePatientCached.information = some sampleInfo ∧
    PatientState.labels sampleClient
        (PatientState.add_label samplePatientCached "new-label").1 =
      (sampleInfo.labels, samplePatientCached, []) :=
  ⟨rfl, rfl,
   (C5_labels_stale_after_add sampleClient samplePatientCached sampleSeriesCached
      "new-label").2.2.2.2.1 sampleInfo rfl rfl⟩

/-- C7: the child accessors (`Patient.studies`, `Series.instances`) build one
child proxy per identifier in the metadata document, in order, each carrying
the parent's current lock flag (the client is the single shared ambient
oracle).  Under lock the list is built once, cached, and the identical cached
list is served on every later access with no fetch; without lock a freshly
built list is returned on every access and nothing is cached. -/
theorem C7_child_accessors (client : Client) (p : PatientState) (s : SeriesState) :
    (p.lock = true → p.childResources = none →
      PatientState.studies client p =
        ((PatientState.get_main_information client p).1.childIds.map
           (fun i => StudyState.new i p.lock),
         { (PatientState.get_main_information client p).2.1 with
           childResources := some ((PatientState.get_main_information client p).1.childIds.map
             (fun i => StudyState.new i p.lock)) },
         (PatientState.get_main_information client p).2.2) ∧
      PatientState.studies client (PatientState.studies client p).2.1 =
        ((PatientState.studies client p).1, (PatientState.studies client p).2.1, [])) ∧
    (∀ children, p.lock = true → p.childResources = some children →
      PatientState.studies client p = (children, p, [])) ∧
    (p.lock = false →
      PatientState.studies client p =
        ((client.get_patients_id p.id_).childIds.map (fun i => StudyState.new i p.lock),
         p, [ClientCall.get_patients_id p.id_])) ∧
    (s.lock = true → s.childResources = none →
      SeriesState.instances client s =
        ((SeriesState.get_main_information client s).1.childIds.map
           (fun i => some (InstanceState.new i s.lock)),
         { (SeriesState.get_main_information client s).2.1 with
           childResources := some ((SeriesState.get_main_information client s).1.childIds.map
             (fun i => some (InstanceState.new i s.lock))) },
         (SeriesState.get_main_information client s).2.2) ∧
      SeriesState.instances client (SeriesState.instances client s).2.1 =
        ((SeriesState.instances client s).1, (SeriesState.instances client s).2.1, [])) ∧
    (∀ children, s.lock = true → s.childResources = some children →
      SeriesState.instances client s = (children, s, [])) ∧
    (s.lock = false →
      SeriesState.instances client s =
        ((client.get_series_id s.id_).childIds.map
           (fun i => some (InstanceState.new i s.lock)),
         s, [ClientCall.get_series_id s.id_])) := by
  refine ⟨fun hl hc => ?_, fun children hl hc => ?_, fun hl => ?_,
          fun hl hc => ?_, fun children hl hc => ?_, fun hl => ?_⟩
  · cases hi : p.information <;>
      simp [PatientState.studies, PatientState.get_main_information, hl, hc, hi]
  · simp [PatientState.studies, hl, hc]
  · simp [PatientState.studies, PatientState.get_main_information, hl]
  · cases hi : s.information <;>
      simp [SeriesState.instances, SeriesState.get_main_information, hl, hc, hi]
  · simp [SeriesState.instances, hl, hc]
  · simp [SeriesState.instances, SeriesState.get_main_information, hl]

/-- Witness for C7 on a fresh locked patient: the first access builds and
caches one Study per identifier with the parent's lock flag; the second
access serves the identical cached list with no fetch. -/
theorem C7_witness :
    (PatientState.new "p0" true).lock = true ∧
    (PatientState.new "p0" true).childResources = none ∧
    (PatientState.studies sampleClient (PatientState.new "p0" true) =
      (sampleInfo.childIds.map (fun i => StudyState.new i true),
       { PatientState.new "p0" true with
         information := some sampleInfo
         childResources := some (sampleInfo.childIds.map (fun i => StudyState.new i true)) },
       [ClientCall.get_patients_id "p0"]) ∧
     PatientState.studies sampleClient
         (PatientState.studies sampleClient (PatientState.new "p0" true)).2.1 =
       ((PatientState.studies sampleClient (PatientState.new "p0" true)).1,
        (PatientState.studies sampleClient (PatientState.new "p0" true)).2.1, [])) :=
  ⟨rfl, rfl,
   (C7_child_accessors sampleClient (PatientState.new "p0" true)
      (SeriesState.new "s0" true)).1 rfl rfl⟩

/-- C9: a synchronous `anonymize` on a locked Patient or Series returns a
proxy constructed without the source's lock flag: the new resource is in the
default unlocked mode. -/
theorem C9_anonymize_returns_unlocked (client : Client) (p : PatientState)
    (s : SeriesState) (remove : Option (List String))
    (replace : Option (List (String × String))) (keep : Option (List String))
    (force keep_private_tags keep_source : Bool) (priority : Int)
    (permissive : Bool) (dicom_version : Option String)
    (_hp : p.lock = true) (_hs : s.lock = true) :
    (∀ q, (PatientState.anonymize client p remove replace keep false force
        keep_private_tags keep_source priority permissive dicom_version).1 =
          PatientOrJob.patient q → q.lock = false) ∧
    (∀ q, (SeriesState.anonymize client s remove replace keep false force
        keep_private_tags keep_source priority permissive dicom_version).1 =
          SeriesOrJob.series q → q.lock = false) := by
  constructor
  · intro q hq
    simp [PatientState.anonymize] at hq
    subst hq
    rfl
  · intro q hq
    simp [SeriesState.anonymize] at hq
    subst hq
    rfl

/-- Witness for C9: anonymizing the locked cached sample patient returns an
unlocked patient proxy. -/
theorem C9_witness :
    samplePatientCached.lock = true ∧
    (PatientState.anonymize sampleClient samplePatientCached none none none
        false false false true 0 false none).1 =
      PatientOrJob.patient (PatientState.new "anon-patient" false) ∧
    (PatientState.new "anon-patient" false).lock = false :=
  ⟨rfl, rfl,
   (C9_anonymize_returns_unlocked sampleClient samplePatientCached
      sampleSeriesCached none none none false false true 0 false none rfl rfl).1
     (PatientState.new "anon-patient" false) rfl⟩

lemma make_datetime_never_tag_missing (date : String) (time : Option String)
    (tg : String) :
    make_datetime_from_dicom_date date time ≠
      Except.error (PyError.tagDoesNotExist tg) := by
  unfold make_datetime_from_dicom_date
  repeat' split
  all_goals simp

lemma series_date_eq_make_datetime (client : Client) (s : SeriesState) (ds : String)
    (hdate : (SeriesState.get_main_information client s).1.mainDicomTags.lookup
        "SeriesDate" = some ds) :
    (SeriesState.date client s).1 =
      make_datetime_from_dicom_date ds
        ((SeriesState.get_main_information client s).1.mainDicomTags.lookup
          "SeriesTime") := by
  have hstable := series_info_stable client s
  cases hts : (SeriesState.get_main_information client s).1.mainDicomTags.lookup
      "SeriesTime" with
  | none =>
      simp [SeriesState.date, SeriesState.get_main_dicom_tag_value, hdate, hstable, hts]
  | some ts =>
      simp [SeriesState.date, SeriesState.get_main_dicom_tag_value, hdate, hstable, hts]

/-- C6: when the served series document has a `SeriesDate` tag, `date` builds
the datetime from `SeriesDate` and `SeriesTime` when the time tag is present;
when `SeriesTime` is absent the TagMissing error is caught internally and a
datetime with a zero time component is still produced for a well-formed date;
in no case does a tag-missing error escape `date`. -/
theorem C6_series_date_optional_time (client : Client) (s : SeriesState)
    (ds : String)
    (hdate : (SeriesState.get_main_information client s).1.mainDicomTags.lookup
        "SeriesDate" = some ds) :
    (∀ ts, (SeriesState.get_main_information client s).1.mainDicomTags.lookup
        "SeriesTime" = some ts →
      (SeriesState.date client s).1 = make_datetime_from_dicom_date ds (some ts)) ∧
    ((SeriesState.get_main_information client s).1.mainDicomTags.lookup
        "SeriesTime" = none →
      (SeriesState.date client s).1 = make_datetime_from_dicom_date ds none) ∧
    (∀ y m d, (SeriesState.get_main_information client s).1.mainDicomTags.lookup
        "SeriesTime" = none →
      ds.data.length = 8 → parseNatDigits (ds.data.take 4) = some y →
      parseNatDigits ((ds.data.drop 4).take 2) = some m →
      parseNatDigits (ds.data.drop 6) = some d →
      (SeriesState.date client s).1 =
        Except.ok { year := y, month := m, day := d, hour := 0, minute := 0, second := 0 }) ∧
    (∀ tg, (SeriesState.date client s).1 ≠
      Except.error (PyError.tagDoesNotExist tg)) := by
  have hmain := series_date_eq_make_datetime client s ds hdate
  refine ⟨fun ts hts => ?_, fun hts => ?_, fun y m d hts hlen hy hm hd => ?_, fun tg => ?_⟩
  · rw [hmain, hts]
  · rw [hmain, hts]
  · rw [hmain, hts]
    simp [make_datetime_from_dicom_date, hlen, hy, hm, hd]
  · rw [hmain]
    exact make_datetime_never_tag_missing ds _ tg

/-- Witness for C6 on a locked series whose cached document has a
`SeriesDate` of 20220101 and no `SeriesTime`: `date` returns the zero-time
datetime for 2022-01-01. -/
theorem C6_witness :
    (SeriesState.get_main_information sampleClient sampleSeriesNoTime).1.mainDicomTags.lookup
        "SeriesDate" = some "20220101" ∧
    (SeriesState.get_main_information sampleClient sampleSeriesNoTime).1.mainDicomTags.lookup
        "SeriesTime" = none ∧
    (SeriesState.date sampleClient sampleSeriesNoTime).1 =
      Except.ok { year := 2022, month := 1, day := 1, hour := 0, minute := 0, second := 0 } :=
  ⟨by decide, by decide,
   (C6_series_date_optional_time sampleClient sampleSeriesNoTime "20220101"
      (by decide)).2.2.1 2022 1 1 (by decide) (by decide) (by decide) (by decide)
     (by decide)⟩
